import Mathlib

/-!
Shallow embedding of the trajectory-analysis engine of
`src/newjourney1.py` (repository decodex-sol).

Modelling conventions:

* Python floats are modelled exactly by `ℚ`; the places where the source
  can produce IEEE non-finite values (the NaN/inf results of a float
  division by zero in the route-efficiency computation, and the NaN
  standard deviation of a single-element pandas Series) are modelled
  explicitly (`PyFloat`, `Option ℚ`).
* Python exceptions are modelled by `Except PyErr`: `parts[i]` on a too
  short list raises `IndexError`, `datetime.strptime` / `float` on bad
  input raise `ValueError`.  The source defines no exception classes of
  its own.
* `geopy.distance.geodesic(...).kilometers` is an external library
  function; the engine only feeds it coordinate pairs and consumes a
  kilometre value, so it is modelled as an explicit function parameter
  `dist : ℚ × ℚ → ℚ × ℚ → ℚ` of the pipeline.  Concrete instantiations
  (used for witnesses) may be any such function.
* `datetime.strptime` with the fixed format string
  YYYY-MM-DD HH:MM:SS.ffffff is embedded by `strptime` below, following
  the CPython `_strptime` regexps for %Y %m %d %H %M %S %f (maximal
  digit runs, 1-2 digit fields except the 4-digit year and the 1-6
  digit fraction, right-zero-padded microseconds) together with the
  calendar validation performed by the datetime constructor.
* `float(...)` on the coordinate fields is embedded for plain decimal
  literals (optional sign, digits, optional fractional part); the
  exponent / inf / nan / underscore forms of the Python float grammar
  are never exercised by any claim and are rejected by the model.
-/

/-- Errors a run of the source can raise: Python builtin IndexError
    (list subscript out of range) and ValueError (strptime / float). -/
inductive PyErr where
  | indexError
  | valueError
deriving DecidableEq, Repr

/-- Result of a numpy float division: a finite value, NaN (0/0) or a
    signed infinity (x/0 for x nonzero). -/
inductive PyFloat where
  | nan
  | inf
  | neginf
  | val (q : ℚ)
deriving DecidableEq, Repr

deriving instance DecidableEq for Except

attribute [local semireducible] Rat.add Rat.inv Rat.mul Rat.sub

/-- numpy float64 division: x/0 gives a signed infinity, 0/0 gives NaN;
    no exception is raised. -/
def npDiv (a b : ℚ) : PyFloat :=
  if b = 0 then (if a = 0 then .nan else if 0 < a then .inf else .neginf)
  else .val (a / b)

/-- Characters stripped by Python str.strip() (ASCII whitespace). -/
def isPySpace (c : Char) : Bool :=
  c = ' ' || c = '\t' || c = '\n' || c = '\x0d' || c = '\x0b' || c = '\x0c'

/-- Python str.strip(): remove leading and trailing whitespace. -/
def pyStrip (cs : List Char) : List Char :=
  ((cs.dropWhile isPySpace).reverse.dropWhile isPySpace).reverse

/-- Python str.split(sep) with an explicit one-character separator:
    splits at every occurrence and never drops empty pieces, so the
    empty string yields the single piece "" and adjacent separators
    yield empty pieces. -/
def splitOnChar (c : Char) : List Char → List (List Char)
  | [] => [[]]
  | x :: xs =>
    let r := splitOnChar c xs
    if x = c then [] :: r
    else
      match r with
      | [] => [[x]]
      | g :: gs => (x :: g) :: gs

/-- Numeric value of a digit string (most significant first). -/
def digitsVal (ds : List Char) : Nat :=
  ds.foldl (fun a c => 10 * a + (c.toNat - 48)) 0

/-- Take the maximal leading digit run of a character list. -/
def takeDigits (cs : List Char) : List Char × List Char :=
  (cs.takeWhile Char.isDigit, cs.dropWhile Char.isDigit)

/-- Parse one 1-to-maxLen-digit field whose value must lie in [lo, hi]
    (the CPython strptime regexps match a maximal run of at most two
    digits for %m %d %H %M %S and validate the value range). -/
def takeField (maxLen lo hi : Nat) (cs : List Char) : Option (Nat × List Char) :=
  let ds := (takeDigits cs).1
  let rest := (takeDigits cs).2
  if ds.length = 0 || decide (maxLen < ds.length) then none
  else
    let v := digitsVal ds
    if decide (v < lo) || decide (hi < v) then none else some (v, rest)

/-- Expect a literal character. -/
def expectChar (c : Char) : List Char → Option (List Char)
  | [] => none
  | x :: xs => if x = c then some xs else none

/-- Gregorian leap year. -/
def isLeap (y : Nat) : Bool :=
  y % 4 = 0 && (y % 100 ≠ 0 || y % 400 = 0)

/-- Days in a month (datetime constructor validation). -/
def daysInMonth (y m : Nat) : Nat :=
  if m = 2 then (if isLeap y then 29 else 28)
  else if m = 4 || m = 6 || m = 9 || m = 11 then 30
  else 31

/-- Days in the months strictly before month m of year y. -/
def daysBeforeMonth (y m : Nat) : Nat :=
  ((List.range m).drop 1).foldl (fun a k => a + daysInMonth y k) 0

/-- Day number of a proleptic-Gregorian calendar date, counted from
    0001-01-01 = day 0 (only differences of timestamps matter). -/
def rataDie (y m d : Nat) : Nat :=
  365 * (y - 1) + (y - 1) / 4 - (y - 1) / 100 + (y - 1) / 400
    + daysBeforeMonth y m + (d - 1)

/-- The calendar fields datetime.strptime produces for the fixed format
    YYYY-MM-DD HH:MM:SS.ffffff. -/
structure TimeStruct where
  year : Nat
  month : Nat
  day : Nat
  hour : Nat
  minute : Nat
  second : Nat
  micro : Nat
deriving DecidableEq, Repr

/-- Absolute time of a TimeStruct in microseconds since
    0001-01-01 00:00:00.000000. -/
def TimeStruct.us (t : TimeStruct) : Nat :=
  ((((rataDie t.year t.month t.day) * 24 + t.hour) * 60 + t.minute) * 60
      + t.second) * 1000000 + t.micro

/-- datetime.strptime(s, %Y-%m-%d %H:%M:%S.%f): 4-digit year (>= 1,
    datetime.MINYEAR), 1-2 digit month/day/hour/minute/second with
    range checks, literal separators, 1-6 digit fraction zero-padded on
    the right to microseconds, and no unconverted data remaining;
    the day is validated against the month length. -/
def strptime (cs : List Char) : Option TimeStruct := do
  let (y, r1) ← takeField 4 1 9999 cs
  if (takeDigits cs).1.length ≠ 4 then none else
  let r2 ← expectChar '-' r1
  let (mo, r3) ← takeField 2 1 12 r2
  let r4 ← expectChar '-' r3
  let (d, r5) ← takeField 2 1 31 r4
  if daysInMonth y mo < d then none else
  let r6 ← expectChar ' ' r5
  let (h, r7) ← takeField 2 0 23 r6
  let r8 ← expectChar ':' r7
  let (mi, r9) ← takeField 2 0 59 r8
  let r10 ← expectChar ':' r9
  let (sec, r11) ← takeField 2 0 59 r10
  let r12 ← expectChar '.' r11
  let fs := (takeDigits r12).1
  let rest := (takeDigits r12).2
  if fs.length = 0 || decide (6 < fs.length) then none else
  if rest ≠ [] then none else
  some ⟨y, mo, d, h, mi, sec, digitsVal fs * 10 ^ (6 - fs.length)⟩

/-- Python float() on a plain decimal literal: optional sign, then
    digits, digits.digits, digits. or .digits (at least one digit). -/
def parseFloat (cs : List Char) : Option ℚ :=
  let (sgn, cs1) : ℚ × List Char :=
    match cs with
    | '-' :: t => (-1, t)
    | '+' :: t => (1, t)
    | _ => (1, cs)
  let (ip, cs2) := takeDigits cs1
  match cs2 with
  | '.' :: cs3 =>
    let (fp, cs4) := takeDigits cs3
    if cs4 = [] && !(ip = [] && fp = []) then
      some (sgn * ((digitsVal ip : ℚ) + (digitsVal fp : ℚ) / 10 ^ fp.length))
    else none
  | [] => if ip ≠ [] then some (sgn * (digitsVal ip : ℚ)) else none
  | _ => none

/-- One parsed record of the cleaned_data list: the timestamp (kept as
    absolute microseconds) with its calendar decomposition (the dict
    keys date / time / hour / minute of the source) and the two
    coordinates. -/
structure RawRecord where
  timestampUs : Nat
  latitude : ℚ
  longitude : ℚ
  year : Nat
  month : Nat
  day : Nat
  hour : Nat
  minute : Nat
  second : Nat
deriving DecidableEq, Repr

/-- One row of the processed DataFrame: the parsed record together with
    the derived columns duration_minutes, distance_km,
    cumulative_distance and speed_kmh. -/
structure DerivedRecord where
  raw : RawRecord
  duration_minutes : ℚ
  distance_km : ℚ
  cumulative_distance : ℚ
  speed_kmh : ℚ
deriving DecidableEq, Repr

/-- Parse one line of the input text, exactly as the body of the
    for-loop of load_and_process_data: split on tab, subscript parts[1]
    (IndexError when absent), strptime it (ValueError on mismatch),
    then float(parts[2]) and float(parts[3]) in that order. -/
def parseLine (line : List Char) : Except PyErr RawRecord :=
  let parts := splitOnChar '\t' line
  match parts[1]? with
  | none => .error .indexError
  | some tsStr =>
    match strptime tsStr with
    | none => .error .valueError
    | some t =>
      match parts[2]? with
      | none => .error .indexError
      | some latStr =>
        match parseFloat latStr with
        | none => .error .valueError
        | some lat =>
          match parts[3]? with
          | none => .error .indexError
          | some lonStr =>
            match parseFloat lonStr with
            | none => .error .valueError
            | some lon =>
              .ok ⟨t.us, lat, lon, t.year, t.month, t.day, t.hour, t.minute, t.second⟩

/-- Fail-fast sequential map over Except, mirroring the Python for-loop
    that appends one record per line and lets the first exception abort
    the whole parse. -/
def mapExcept (f : α → Except PyErr β) : List α → Except PyErr (List β)
  | [] => .ok []
  | a :: as =>
    match f a with
    | .error e => .error e
    | .ok b =>
      match mapExcept f as with
      | .error e => .error e
      | .ok bs => .ok (b :: bs)

/-- lines = data_text.strip().split(chr 10): note that Python split
    with an explicit separator never drops empty pieces, so interior
    empty lines survive into the loop (and the empty string yields the
    single piece ""). -/
def splitLines (s : String) : List (List Char) :=
  splitOnChar '\n' (pyStrip s.data)

/-- Round half to even (the rounding of numpy/pandas Series.round). -/
def roundHalfEven (q : ℚ) : ℤ :=
  if q - ⌊q⌋ < 1 / 2 then ⌊q⌋
  else if 1 / 2 < q - ⌊q⌋ then ⌊q⌋ + 1
  else if ⌊q⌋ % 2 = 0 then ⌊q⌋ else ⌊q⌋ + 1

/-- pandas .round(2). -/
def pyRound2 (q : ℚ) : ℚ :=
  (roundHalfEven (q * 100) : ℚ) / 100

/-- The per-segment distance column: initialised to 0.0, then for each
    i >= 1 set to dist of the coordinates of rows i-1 and i (the
    geodesic(coords_1, coords_2).kilometers loop). -/
def segDistances (dist : ℚ × ℚ → ℚ × ℚ → ℚ) : List RawRecord → List ℚ
  | [] => []
  | r :: rest =>
    0 :: List.zipWith
      (fun a b => dist (a.latitude, a.longitude) (b.latitude, b.longitude))
      (r :: rest) rest

/-- pandas Series.cumsum with a running accumulator (left-to-right). -/
def cumsumFrom (acc : ℚ) : List ℚ → List ℚ
  | [] => []
  | x :: xs => (acc + x) :: cumsumFrom (acc + x) xs

/-- df.cumsum applied to the distance column. -/
def cumsum (xs : List ℚ) : List ℚ :=
  cumsumFrom 0 xs

/-- duration_minutes of one row: ((timestamp - t0).total_seconds() / 60)
    rounded to 2 decimals. -/
def durationMinutes (t0 : Nat) (r : RawRecord) : ℚ :=
  pyRound2 ((((r.timestampUs : ℚ) - (t0 : ℚ)) / 1000000) / 60)

/-- df.timestamp.iloc[0] (0 on an empty frame, which the parse never
    produces). -/
def firstTs : List RawRecord → Nat
  | [] => 0
  | r :: _ => r.timestampUs

/-- Assemble the derived columns of load_and_process_data: duration
    from the first row's timestamp, the distance column, its cumsum,
    and speed_kmh = distance_km / (10/60). -/
def derive (dist : ℚ × ℚ → ℚ × ℚ → ℚ) (raws : List RawRecord) : List DerivedRecord :=
  let t0 := firstTs raws
  let ds := segDistances dist raws
  List.zipWith
    (fun r dc =>
      { raw := r
        duration_minutes := durationMinutes t0 r
        distance_km := dc.1
        cumulative_distance := dc.2
        speed_kmh := dc.1 / (10 / 60) })
    raws (ds.zip (cumsum ds))

/-- load_and_process_data: strip and split the text, parse every line
    (fail-fast), then add the derived columns. -/
def load_and_process_data (dist : ℚ × ℚ → ℚ × ℚ → ℚ) (data_text : String) :
    Except PyErr (List DerivedRecord) :=
  match mapExcept parseLine (splitLines data_text) with
  | .error e => .error e
  | .ok raws => .ok (derive dist raws)

/-- The speed_kmh column of the frame. -/
def speeds (recs : List DerivedRecord) : List ℚ :=
  recs.map (·.speed_kmh)

/-- pandas Series.mean of a list of rationals (NaN on the empty series
    never arises: the parse always yields at least one record). -/
def seriesMean (xs : List ℚ) : ℚ :=
  xs.sum / (xs.length : ℚ)

/-- pandas Series.var with the default ddof = 1 (sample variance,
    divisor n - 1); a series of length <= 1 has variance NaN, modelled
    as none. -/
def seriesVar (xs : List ℚ) : Option ℚ :=
  if xs.length ≤ 1 then none
  else some ((xs.map (fun x => (x - seriesMean xs) ^ 2)).sum / ((xs.length : ℚ) - 1))

/-- Population variance (divisor n), stated only for contrast with the
    sample variance pandas actually uses. -/
def popVar (xs : List ℚ) : ℚ :=
  (xs.map (fun x => (x - seriesMean xs) ^ 2)).sum / (xs.length : ℚ)

/-- high_speed_segments: rows with speed_kmh > mean + std.  Since std
    is the square root of the sample variance v >= 0, the comparison
    s > m + sqrt v is encoded over ℚ as s > m and (s - m)^2 > v; when
    the std is NaN (single row) every comparison with it is False and
    the selection is empty. -/
def high_speed_segments (recs : List DerivedRecord) : List DerivedRecord :=
  match seriesVar (speeds recs) with
  | none => []
  | some v =>
    recs.filter (fun r =>
      decide (seriesMean (speeds recs) < r.speed_kmh ∧
        v < (r.speed_kmh - seriesMean (speeds recs)) ^ 2))

/-- low_speed_segments: rows with speed_kmh < mean - std, encoded over
    ℚ as s < m and (m - s)^2 > v (empty when the std is NaN). -/
def low_speed_segments (recs : List DerivedRecord) : List DerivedRecord :=
  match seriesVar (speeds recs) with
  | none => []
  | some v =>
    recs.filter (fun r =>
      decide (r.speed_kmh < seriesMean (speeds recs) ∧
        v < (seriesMean (speeds recs) - r.speed_kmh) ^ 2))

/-- pandas Series.max of a nonempty list. -/
def seriesMax : List ℚ → ℚ
  | [] => 0
  | x :: xs => xs.foldl max x

/-- The Route Efficiency Analysis block of main: straight-line distance
    between the coordinates of the first and last rows, divided by
    cumulative_distance.max() with plain numpy float division (NaN on
    0/0; the source guards nothing). -/
def route_efficiency (dist : ℚ × ℚ → ℚ × ℚ → ℚ) (recs : List DerivedRecord) : PyFloat :=
  match recs with
  | [] => .nan
  | r :: rest =>
    let lastR := List.getLast (r :: rest) (by simp)
    npDiv
      (dist (r.raw.latitude, r.raw.longitude) (lastR.raw.latitude, lastR.raw.longitude))
      (seriesMax ((r :: rest).map (·.cumulative_distance)))

/-- main's route-efficiency value as a function of the raw input text:
    parse-and-derive, then compute the ratio. -/
def mainRouteEfficiency (dist : ℚ × ℚ → ℚ × ℚ → ℚ) (data_text : String) :
    Except PyErr PyFloat :=
  (load_and_process_data dist data_text).map (route_efficiency dist)

/-- True when a run of the source raises an exception. -/
def isFailure : Except PyErr α → Bool
  | .error _ => true
  | .ok _ => false

/-- A concrete distance function (taxicab on coordinate pairs) used to
    instantiate the geodesic parameter in concrete evaluations: it is
    nonnegative and vanishes on identical points, the two properties the
    claims use of geopy geodesic distance. -/
def taxi (p q : ℚ × ℚ) : ℚ :=
  |p.1 - q.1| + |p.2 - q.2|

/-! ### Structural lemmas about the embedded pipeline -/

theorem mapExcept_ok_length {α β : Type} {f : α → Except PyErr β} :
    ∀ {l : List α} {l' : List β}, mapExcept f l = .ok l' → l'.length = l.length := by
  intro l
  induction l with
  | nil =>
    intro l' h
    simp only [mapExcept] at h
    cases h
    rfl
  | cons a as ih =>
    intro l' h
    simp only [mapExcept] at h
    cases hf : f a with
    | error e => rw [hf] at h; cases h
    | ok b =>
      rw [hf] at h
      cases hm : mapExcept f as with
      | error e => rw [hm] at h; cases h
      | ok bs =>
        rw [hm] at h
        cases h
        simp [ih hm]

theorem mapExcept_ok_get {α β : Type} {f : α → Except PyErr β} :
    ∀ {l : List α} {l' : List β}, mapExcept f l = .ok l' →
      ∀ (i : Nat) (x : α) (y : β), l[i]? = some x → l'[i]? = some y → f x = .ok y := by
  intro l
  induction l with
  | nil =>
    intro l' h i x y hx hy
    simp at hx
  | cons a as ih =>
    intro l' h i x y hx hy
    simp only [mapExcept] at h
    cases hf : f a with
    | error e => rw [hf] at h; cases h
    | ok b =>
      rw [hf] at h
      cases hm : mapExcept f as with
      | error e => rw [hm] at h; cases h
      | ok bs =>
        rw [hm] at h
        cases h
        cases i with
        | zero =>
          simp only [List.getElem?_cons_zero, Option.some.injEq] at hx hy
          rw [← hx, ← hy]
          exact hf
        | succ j =>
          simp only [List.getElem?_cons_succ] at hx hy
          exact ih hm j x y hx hy

theorem cumsumFrom_length : ∀ (xs : List ℚ) (acc : ℚ),
    (cumsumFrom acc xs).length = xs.length := by
  intro xs
  induction xs with
  | nil => intro acc; rfl
  | cons x t ih => intro acc; simp [cumsumFrom, ih]

theorem cumsumFrom_get : ∀ (xs : List ℚ) (acc : ℚ) (i : Nat), i < xs.length →
    (cumsumFrom acc xs)[i]? = some (acc + (xs.take (i + 1)).sum) := by
  intro xs
  induction xs with
  | nil => intro acc i hi; simp at hi
  | cons x t ih =>
    intro acc i hi
    cases i with
    | zero => simp [cumsumFrom]
    | succ j =>
      have hj : j < t.length := by simpa using hi
      simp only [cumsumFrom, List.getElem?_cons_succ]
      rw [ih (acc + x) j hj]
      simp [List.take_succ_cons, add_assoc]

theorem segDistances_length (dist : ℚ × ℚ → ℚ × ℚ → ℚ) :
    ∀ rs : List RawRecord, (segDistances dist rs).length = rs.length := by
  intro rs
  cases rs with
  | nil => rfl
  | cons r rest => simp [segDistances]

theorem segDistances_zero (dist : ℚ × ℚ → ℚ × ℚ → ℚ) (r : RawRecord)
    (rest : List RawRecord) : (segDistances dist (r :: rest))[0]? = some 0 := by
  simp [segDistances]

theorem segDistances_succ (dist : ℚ × ℚ → ℚ × ℚ → ℚ) (rs : List RawRecord)
    (i : Nat) (a b : RawRecord) (ha : rs[i]? = some a) (hb : rs[i + 1]? = some b) :
    (segDistances dist rs)[i + 1]? =
      some (dist (a.latitude, a.longitude) (b.latitude, b.longitude)) := by
  cases rs with
  | nil => simp at ha
  | cons r rest =>
    simp only [segDistances, List.getElem?_cons_succ]
    have hb' : rest[i]? = some b := by simpa using hb
    rw [List.getElem?_zipWith_eq_some]
    exact ⟨a, b, ha, hb', rfl⟩

theorem segDistances_nonneg (dist : ℚ × ℚ → ℚ × ℚ → ℚ)
    (hd : ∀ p q : ℚ × ℚ, 0 ≤ dist p q) (rs : List RawRecord) (i : Nat) (q : ℚ)
    (h : (segDistances dist rs)[i]? = some q) : 0 ≤ q := by
  cases rs with
  | nil => simp [segDistances] at h
  | cons r rest =>
    cases i with
    | zero =>
      rw [segDistances_zero] at h
      cases h
      exact le_refl _
    | succ j =>
      simp only [segDistances, List.getElem?_cons_succ,
        List.getElem?_zipWith_eq_some] at h
      obtain ⟨a, b, _, _, hq⟩ := h
      rw [← hq]
      exact hd _ _

theorem cumsum_length (xs : List ℚ) : (cumsum xs).length = xs.length :=
  cumsumFrom_length xs 0

theorem derive_length (dist : ℚ × ℚ → ℚ × ℚ → ℚ) (raws : List RawRecord) :
    (derive dist raws).length = raws.length := by
  simp [derive, List.length_zipWith, List.length_zip, segDistances_length,
    cumsum_length]

theorem derive_get (dist : ℚ × ℚ → ℚ × ℚ → ℚ) (raws : List RawRecord) (i : Nat)
    (rec : DerivedRecord) (h : (derive dist raws)[i]? = some rec) :
    raws[i]? = some rec.raw ∧
    (segDistances dist raws)[i]? = some rec.distance_km ∧
    (cumsum (segDistances dist raws))[i]? = some rec.cumulative_distance ∧
    rec.speed_kmh = rec.distance_km / (10 / 60) ∧
    rec.duration_minutes = durationMinutes (firstTs raws) rec.raw := by
  simp only [derive] at h
  rw [List.getElem?_zipWith_eq_some] at h
  obtain ⟨r, dc, hr, hdc, hrec⟩ := h
  rw [List.getElem?_zip_eq_some] at hdc
  obtain ⟨hd, hc⟩ := hdc
  subst hrec
  exact ⟨hr, hd, hc, rfl, rfl⟩

theorem load_ok_elim {dist : ℚ × ℚ → ℚ × ℚ → ℚ} {s : String}
    {recs : List DerivedRecord}
    (h : load_and_process_data dist s = .ok recs) :
    ∃ raws, mapExcept parseLine (splitLines s) = .ok raws ∧ recs = derive dist raws := by
  unfold load_and_process_data at h
  cases hm : mapExcept parseLine (splitLines s) with
  | error e => rw [hm] at h; cases h
  | ok raws =>
    rw [hm] at h
    cases h
    exact ⟨raws, rfl, rfl⟩

theorem roundHalfEven_mono {x y : ℚ} (h : x ≤ y) :
    roundHalfEven x ≤ roundHalfEven y := by
  unfold roundHalfEven
  have hx0 : (0 : ℚ) ≤ x - ⌊x⌋ := by
    have := Int.floor_le x
    linarith
  have hy1 : y - ⌊y⌋ < 1 := by
    have := Int.lt_floor_add_one y
    linarith
  have hfl : ⌊x⌋ ≤ ⌊y⌋ := Int.floor_le_floor h
  rcases lt_or_eq_of_le hfl with hlt | heq
  · have h1 : ⌊x⌋ + 1 ≤ ⌊y⌋ := hlt
    split_ifs <;> omega
  · rw [← heq]
    have hfxy : x - ⌊x⌋ ≤ y - ⌊y⌋ := by
      rw [← heq]
      linarith
    rw [← heq] at hfxy
    split_ifs <;> first
      | omega
      | linarith

theorem pyRound2_mono {x y : ℚ} (h : x ≤ y) : pyRound2 x ≤ pyRound2 y := by
  unfold pyRound2
  have h1 : roundHalfEven (x * 100) ≤ roundHalfEven (y * 100) :=
    roundHalfEven_mono (by linarith)
  have h2 : (roundHalfEven (x * 100) : ℚ) ≤ (roundHalfEven (y * 100) : ℚ) := by
    exact_mod_cast h1
  linarith

theorem pyRound2_zero : pyRound2 0 = 0 := by
  norm_num [pyRound2, roundHalfEven]

theorem cumsum_zero (x : ℚ) (xs : List ℚ) : (cumsum (x :: xs))[0]? = some x := by
  simp [cumsum, cumsumFrom]

theorem cumsum_succ (xs : List ℚ) (i : Nat) (a b : ℚ)
    (ha : (cumsum xs)[i]? = some a) (hb : xs[i + 1]? = some b) :
    (cumsum xs)[i + 1]? = some (a + b) := by
  obtain ⟨hi1, hb'⟩ := List.getElem?_eq_some_iff.mp hb
  have hi : i < xs.length := Nat.lt_of_succ_lt hi1
  rw [cumsum, cumsumFrom_get xs 0 i hi] at ha
  rw [cumsum, cumsumFrom_get xs 0 (i + 1) hi1]
  have hsum : (xs.take (i + 1 + 1)).sum = (xs.take (i + 1)).sum + xs[i + 1] :=
    List.sum_take_succ xs (i + 1) hi1
  cases ha
  rw [hb'] at hsum
  rw [hsum]
  ring_nf

theorem seriesVar_nonneg {xs : List ℚ} {v : ℚ} (h : seriesVar xs = some v) :
    0 ≤ v := by
  unfold seriesVar at h
  split at h
  · cases h
  · rename_i hlen
    cases h
    push_neg at hlen
    have hnum : 0 ≤ (xs.map (fun x => (x - seriesMean xs) ^ 2)).sum := by
      apply List.sum_nonneg
      intro q hq
      obtain ⟨x, _, hxq⟩ := List.mem_map.mp hq
      rw [← hxq]
      positivity
    have hden : (0 : ℚ) < (xs.length : ℚ) - 1 := by
      have h2 : (2 : ℚ) ≤ (xs.length : ℚ) := by exact_mod_cast hlen
      linarith
    positivity

theorem lt_add_sqrt_iff (m v s : ℚ) :
    ((m : ℝ) + Real.sqrt (v : ℝ) < (s : ℝ)) ↔ (m < s ∧ v < (s - m) ^ 2) := by
  constructor
  · intro hlt
    have hnn := Real.sqrt_nonneg (v : ℝ)
    have hms : (m : ℝ) < (s : ℝ) := by linarith
    have h1 : Real.sqrt (v : ℝ) < (s : ℝ) - (m : ℝ) := by linarith
    have h2 : ((v : ℝ)) < ((s : ℝ) - (m : ℝ)) ^ 2 :=
      (Real.sqrt_lt' (by linarith)).mp h1
    refine ⟨by exact_mod_cast hms, ?_⟩
    have h3 : ((v : ℝ)) < (((s - m) ^ 2 : ℚ) : ℝ) := by push_cast; linarith
    exact_mod_cast h3
  · rintro ⟨hms, hv2⟩
    have hms' : (m : ℝ) < (s : ℝ) := by exact_mod_cast hms
    have hv2' : ((v : ℝ)) < ((s : ℝ) - (m : ℝ)) ^ 2 := by
      have : ((v : ℝ)) < (((s - m) ^ 2 : ℚ) : ℝ) := by exact_mod_cast hv2
      push_cast at this
      linarith
    have := (Real.sqrt_lt' (show (0 : ℝ) < (s : ℝ) - (m : ℝ) by linarith)).mpr hv2'
    linarith

theorem lt_sub_sqrt_iff (m v s : ℚ) :
    ((s : ℝ) < (m : ℝ) - Real.sqrt (v : ℝ)) ↔ (s < m ∧ v < (m - s) ^ 2) := by
  constructor
  · intro hlt
    have hnn := Real.sqrt_nonneg (v : ℝ)
    have hms : (s : ℝ) < (m : ℝ) := by linarith
    have h1 : Real.sqrt (v : ℝ) < (m : ℝ) - (s : ℝ) := by linarith
    have h2 : ((v : ℝ)) < ((m : ℝ) - (s : ℝ)) ^ 2 :=
      (Real.sqrt_lt' (by linarith)).mp h1
    refine ⟨by exact_mod_cast hms, ?_⟩
    have h3 : ((v : ℝ)) < (((m - s) ^ 2 : ℚ) : ℝ) := by push_cast; linarith
    exact_mod_cast h3
  · rintro ⟨hms, hv2⟩
    have hms' : (s : ℝ) < (m : ℝ) := by exact_mod_cast hms
    have hv2' : ((v : ℝ)) < ((m : ℝ) - (s : ℝ)) ^ 2 := by
      have : ((v : ℝ)) < (((m - s) ^ 2 : ℚ) : ℝ) := by exact_mod_cast hv2
      push_cast at this
      linarith
    have := (Real.sqrt_lt' (show (0 : ℝ) < (m : ℝ) - (s : ℝ) by linarith)).mpr hv2'
    linarith

theorem durationMinutes_self (t0 : Nat) (r : RawRecord) (h : r.timestampUs = t0) :
    durationMinutes t0 r = 0 := by
  unfold durationMinutes
  rw [h]
  simp [sub_self, zero_div, pyRound2_zero]

/-- Concrete two-sample journey used by witnesses: two samples ten
    minutes apart, 0.1 degree of latitude apart. -/
def wIn2 : String :=
  "a\t2024-07-09 04:27:31.270921\t30.0\t-97.0\nb\t2024-07-09 04:37:31.270921\t30.1\t-97.0"

def wRaw1 : RawRecord := ⟨63856096051270921, 30, -97, 2024, 7, 9, 4, 27, 31⟩

def wRaw2 : RawRecord := ⟨63856096651270921, 301 / 10, -97, 2024, 7, 9, 4, 37, 31⟩

def wRec1 : DerivedRecord := ⟨wRaw1, 0, 0, 0, 0⟩

def wRec2 : DerivedRecord := ⟨wRaw2, 10, 1 / 10, 1 / 10, 3 / 5⟩

def wRecs2 : List DerivedRecord := [wRec1, wRec2]

/-- C2: for every record of a successfully processed journey,
    segment_speed_kmh equals segment_distance_km divided by the fixed
    nominal sampling interval expressed in hours (10/60, the hardcoded
    10-minute default); the actual elapsed time between consecutive
    timestamps never enters the speed column. -/
theorem speed_uses_fixed_interval (dist : ℚ × ℚ → ℚ × ℚ → ℚ) (s : String)
    (recs : List DerivedRecord) (h : load_and_process_data dist s = .ok recs)
    (i : Nat) (rec : DerivedRecord) (hi : recs[i]? = some rec) :
    rec.speed_kmh = rec.distance_km / (10 / 60) := by
  obtain ⟨raws, _, hrecs⟩ := load_ok_elim h
  subst hrecs
  exact (derive_get dist raws i rec hi).2.2.2.1

theorem speed_uses_fixed_interval_witness :
    load_and_process_data taxi wIn2 = .ok wRecs2 ∧
    wRecs2[1]? = some wRec2 ∧ wRec2.speed_kmh = wRec2.distance_km / (10 / 60) :=
  ⟨by decide, by decide,
    speed_uses_fixed_interval taxi wIn2 wRecs2 (by decide) 1 wRec2 (by decide)⟩

/-- C3: cumulative_distance is the left-to-right prefix sum of
    distance_km: the first record has cumulative_distance =
    distance_km = 0, and each later record's cumulative_distance is the
    previous cumulative_distance plus its own distance_km. -/
theorem cumulative_prefix_sum (dist : ℚ × ℚ → ℚ × ℚ → ℚ) (s : String)
    (recs : List DerivedRecord) (h : load_and_process_data dist s = .ok recs) :
    (∀ rec0 : DerivedRecord, recs[0]? = some rec0 →
      rec0.cumulative_distance = 0 ∧ rec0.distance_km = 0) ∧
    (∀ (i : Nat) (a b : DerivedRecord), recs[i]? = some a →
      recs[i + 1]? = some b →
      b.cumulative_distance = a.cumulative_distance + b.distance_km) := by
  obtain ⟨raws, _, hrecs⟩ := load_ok_elim h
  subst hrecs
  constructor
  · intro rec0 h0
    obtain ⟨hraw, hd, hc, _, _⟩ := derive_get dist raws 0 rec0 h0
    cases raws with
    | nil => simp at hraw
    | cons r rest =>
      rw [segDistances_zero] at hd
      have hd0 : rec0.distance_km = 0 := by
        injection hd with h1
        exact h1.symm
      have hseg : segDistances dist (r :: rest) =
          0 :: List.zipWith
            (fun a b => dist (a.latitude, a.longitude) (b.latitude, b.longitude))
            (r :: rest) rest := rfl
      rw [hseg, cumsum_zero] at hc
      have hc0 : rec0.cumulative_distance = 0 := by
        injection hc with h1
        exact h1.symm
      exact ⟨hc0, hd0⟩
  · intro i a b ha hb
    obtain ⟨_, _, hca, _, _⟩ := derive_get dist raws i a ha
    obtain ⟨_, hdb, hcb, _, _⟩ := derive_get dist raws (i + 1) b hb
    have hstep := cumsum_succ (segDistances dist raws) i
      a.cumulative_distance b.distance_km hca hdb
    rw [hstep] at hcb
    injection hcb with h1
    exact h1.symm

theorem cumulative_prefix_sum_witness :
    (wRec1.cumulative_distance = 0 ∧ wRec1.distance_km = 0) ∧
    wRec2.cumulative_distance = wRec1.cumulative_distance + wRec2.distance_km :=
  ⟨(cumulative_prefix_sum taxi wIn2 wRecs2 (by decide)).1 wRec1 (by decide),
   (cumulative_prefix_sum taxi wIn2 wRecs2 (by decide)).2 0 wRec1 wRec2
     (by decide) (by decide)⟩

/-- C6: the first record of every non-empty journey has
    segment_distance_km = 0, segment_speed_kmh = 0 and
    elapsed_minutes = 0. -/
theorem first_record_baseline (dist : ℚ × ℚ → ℚ × ℚ → ℚ) (s : String)
    (recs : List DerivedRecord) (h : load_and_process_data dist s = .ok recs)
    (rec0 : DerivedRecord) (h0 : recs[0]? = some rec0) :
    rec0.distance_km = 0 ∧ rec0.speed_kmh = 0 ∧ rec0.duration_minutes = 0 := by
  obtain ⟨raws, _, hrecs⟩ := load_ok_elim h
  subst hrecs
  obtain ⟨hraw, hd, _, hs, hdur⟩ := derive_get dist raws 0 rec0 h0
  cases raws with
  | nil => simp at hraw
  | cons r rest =>
    rw [segDistances_zero] at hd
    have hd0 : rec0.distance_km = 0 := by
      injection hd with h1
      exact h1.symm
    refine ⟨hd0, ?_, ?_⟩
    · rw [hs, hd0]
      norm_num
    · simp only [List.getElem?_cons_zero, Option.some.injEq] at hraw
      rw [hdur]
      apply durationMinutes_self
      rw [← hraw]
      rfl

theorem first_record_baseline_witness :
    wRec1.distance_km = 0 ∧ wRec1.speed_kmh = 0 ∧ wRec1.duration_minutes = 0 :=
  first_record_baseline taxi wIn2 wRecs2 (by decide) wRec1 (by decide)

theorem durationMinutes_mono (t0 : Nat) (r1 r2 : RawRecord)
    (h : r1.timestampUs ≤ r2.timestampUs) :
    durationMinutes t0 r1 ≤ durationMinutes t0 r2 := by
  unfold durationMinutes
  apply pyRound2_mono
  have hc : (r1.timestampUs : ℚ) ≤ (r2.timestampUs : ℚ) := by exact_mod_cast h
  have h1 : ((r1.timestampUs : ℚ) - (t0 : ℚ)) / 1000000
      ≤ ((r2.timestampUs : ℚ) - (t0 : ℚ)) / 1000000 := by linarith
  linarith

/-- C7: with nonnegative segment distances (a property of geodesic
    distance, stated here as a hypothesis on the distance parameter)
    cumulative_distance is non-decreasing along the journey; and when
    consecutive timestamps are non-decreasing, elapsed duration_minutes
    is non-decreasing as well. -/
theorem monotone_cumulative_and_elapsed (dist : ℚ × ℚ → ℚ × ℚ → ℚ) (s : String)
    (recs : List DerivedRecord) (h : load_and_process_data dist s = .ok recs)
    (hd : ∀ p q : ℚ × ℚ, 0 ≤ dist p q)
    (i : Nat) (a b : DerivedRecord) (ha : recs[i]? = some a)
    (hb : recs[i + 1]? = some b)
    (hts : a.raw.timestampUs ≤ b.raw.timestampUs) :
    a.cumulative_distance ≤ b.cumulative_distance ∧
    a.duration_minutes ≤ b.duration_minutes := by
  obtain ⟨raws, _, hrecs⟩ := load_ok_elim h
  subst hrecs
  obtain ⟨_, _, hca, _, hdura⟩ := derive_get dist raws i a ha
  obtain ⟨_, hdb, hcb, _, hdurb⟩ := derive_get dist raws (i + 1) b hb
  constructor
  · have hstep := cumsum_succ (segDistances dist raws) i
      a.cumulative_distance b.distance_km hca hdb
    rw [hstep] at hcb
    injection hcb with h1
    have hb0 : 0 ≤ b.distance_km :=
      segDistances_nonneg dist hd raws (i + 1) b.distance_km hdb
    rw [← h1]
    linarith
  · rw [hdura, hdurb]
    exact durationMinutes_mono (firstTs raws) a.raw b.raw hts

theorem monotone_cumulative_and_elapsed_witness :
    wRec1.cumulative_distance ≤ wRec2.cumulative_distance ∧
    wRec1.duration_minutes ≤ wRec2.duration_minutes :=
  monotone_cumulative_and_elapsed taxi wIn2 wRecs2 (by decide)
    (fun p q => add_nonneg (abs_nonneg _) (abs_nonneg _)) 0 wRec1 wRec2
    (by decide) (by decide) (by decide)

/-- C5 (amended): the parse splits the stripped input on newlines and
    consumes every resulting line; for every successfully parsed input
    the record sequence has exactly one record per line of the stripped
    input, in the same order (record i is the parse of line i).
    Interior empty lines are NOT skipped: they make the whole parse
    fail, see the counterexample. -/
theorem one_record_per_line (dist : ℚ × ℚ → ℚ × ℚ → ℚ) (s : String)
    (recs : List DerivedRecord) (h : load_and_process_data dist s = .ok recs) :
    recs.length = (splitLines s).length ∧
    ∀ (i : Nat) (line : List Char) (rec : DerivedRecord),
      (splitLines s)[i]? = some line → recs[i]? = some rec →
      parseLine line = .ok rec.raw := by
  obtain ⟨raws, hm, hrecs⟩ := load_ok_elim h
  subst hrecs
  constructor
  · rw [derive_length, mapExcept_ok_length hm]
  · intro i line rec hline hrec
    have hraw := (derive_get dist raws i rec hrec).1
    exact mapExcept_ok_get hm i line rec.raw hline hraw

theorem one_record_per_line_witness :
    wRecs2.length = (splitLines wIn2).length ∧
    parseLine ("b\t2024-07-09 04:37:31.270921\t30.1\t-97.0").data = .ok wRec2.raw :=
  ⟨(one_record_per_line taxi wIn2 wRecs2 (by decide)).1,
   (one_record_per_line taxi wIn2 wRecs2 (by decide)).2 1
     ("b\t2024-07-09 04:37:31.270921\t30.1\t-97.0").data wRec2
     (by decide) (by decide)⟩

/-- A well-formed journey text with one interior empty line between two
    parseable records. -/
def blankLineInput : String :=
  "a\t2024-07-09 04:27:31.270921\t30.0\t-97.0\n\nb\t2024-07-09 04:37:31.270921\t30.1\t-97.0"

/-- C5 counterexample: the claim says empty lines are skipped, so this
    input (two valid records around one interior empty line) should
    parse to two records; instead the empty line reaches the loop body
    and the run fails with IndexError on parts[1]. -/
theorem interior_empty_line_not_skipped :
    load_and_process_data taxi blankLineInput = .error PyErr.indexError ∧
    ((splitLines blankLineInput).filter (fun l => !l.isEmpty)).length = 2 :=
  ⟨by decide, by decide⟩

/-- C4 (amended): a line with fewer than 4 tab-separated fields makes
    the parse fail (with the Python builtin IndexError or, when the
    timestamp or a coordinate field is reached first and is malformed,
    ValueError); a present-but-malformed timestamp fails with
    ValueError; and the empty input string fails with IndexError — the
    very same error as a malformed record, produced by the same code
    path on the single empty line that strip-and-split yields, not by a
    distinct empty-journey check. -/
theorem parse_failure_modes :
    (∀ line : List Char, (splitOnChar '\t' line).length < 4 →
      isFailure (parseLine line) = true) ∧
    (∀ line tsStr : List Char,
      (splitOnChar '\t' line)[1]? = some tsStr → strptime tsStr = none →
      parseLine line = .error PyErr.valueError) ∧
    (∀ dist : ℚ × ℚ → ℚ × ℚ → ℚ,
      load_and_process_data dist "" = .error PyErr.indexError) := by
  refine ⟨?_, ?_, ?_⟩
  · intro line hlen
    have h3 : (splitOnChar '\t' line)[3]? = none :=
      List.getElem?_eq_none (by omega)
    simp only [parseLine]
    split
    · rfl
    · split
      · rfl
      · split
        · rfl
        · split
          · rfl
          · split
            · rfl
            · simp_all
  · intro line tsStr h1 h2
    simp only [parseLine, h1, h2]
  · intro dist
    rfl

theorem parse_failure_modes_witness :
    isFailure (parseLine ("x\t2024-07-09 04:27:31.270921\t30.0").data) = true ∧
    parseLine ("x\tbad-timestamp\t30.0\t-97.0").data = .error PyErr.valueError ∧
    load_and_process_data taxi "" = .error PyErr.indexError :=
  ⟨parse_failure_modes.1 ("x\t2024-07-09 04:27:31.270921\t30.0").data (by decide),
   parse_failure_modes.2.1 ("x\tbad-timestamp\t30.0\t-97.0").data
     ("bad-timestamp").data (by decide) (by decide),
   parse_failure_modes.2.2 taxi⟩

/-- C4 counterexample: the claim requires a distinct EmptyJourneyError
    for the empty input, but the run on the empty string fails with
    exactly the same error value as a malformed 3-field record: both
    take the IndexError path of parts subscripting, so no distinct
    empty-journey error kind exists in the code. -/
theorem empty_input_same_error_as_malformed :
    load_and_process_data taxi "" = .error PyErr.indexError ∧
    parseLine ("x\t2024-07-09 04:27:31.270921\t30.0").data
      = .error PyErr.indexError :=
  ⟨by decide, by decide⟩

/-- A journey of a single sample. -/
def singleSampleInput : String := "x\t2024-07-09 04:27:31.270921\t30.0\t-97.0"

/-- A journey whose two samples carry identical coordinates. -/
def identicalSamplesInput : String :=
  "a\t2024-07-09 04:27:31.270921\t30.0\t-97.0\nb\t2024-07-09 04:37:31.270921\t30.0\t-97.0"

/-- C1: on a degenerate route (single sample, or all samples at
    identical coordinates) cumulative_distance.max() is 0 and the
    route-efficiency block of main divides anyway: the straight-line
    distance is then also 0, so the division is 0/0 and the reported
    efficiency is the float NaN.  No DegenerateRouteError (or any other
    guard) exists in the code, contradicting the stated requirement
    that the engine must fail or report not-applicable rather than
    divide by zero. -/
theorem degenerate_route_divides_to_nan :
    mainRouteEfficiency taxi singleSampleInput = .ok PyFloat.nan ∧
    mainRouteEfficiency taxi identicalSamplesInput = .ok PyFloat.nan :=
  ⟨by decide, by decide⟩

/-- Batch evaluation of several journeys, one call each (the source has
    no state shared between calls: load_and_process_data reads only its
    argument and writes only locals). -/
def runJourneys (dist : ℚ × ℚ → ℚ × ℚ → ℚ) (inputs : List String) :
    List (Except PyErr (List DerivedRecord)) :=
  inputs.map (load_and_process_data dist)

/-- C9: parse-then-derive is deterministic and free of shared state:
    equal raw inputs give equal outputs, and in a batch of journeys the
    result at every position depends only on the input at that
    position. -/
theorem pipeline_deterministic_and_independent (dist : ℚ × ℚ → ℚ × ℚ → ℚ)
    (s t : String) (hst : s = t) (inputs : List String) (i : Nat) :
    load_and_process_data dist s = load_and_process_data dist t ∧
    (runJourneys dist inputs)[i]? =
      (inputs[i]?).map (load_and_process_data dist) := by
  constructor
  · rw [hst]
  · simp [runJourneys]

theorem pipeline_deterministic_and_independent_witness :
    load_and_process_data taxi wIn2 = load_and_process_data taxi wIn2 ∧
    (runJourneys taxi [wIn2])[0]? =
      (([wIn2] : List String)[0]?).map (load_and_process_data taxi) :=
  pipeline_deterministic_and_independent taxi wIn2 wIn2 rfl [wIn2] 0

/-- C8: the Speed Pattern Analysis block selects exactly the records
    whose speed strictly exceeds mean + stddev (high) resp. lies
    strictly below mean - stddev (low), where stddev is the square root
    of the sample variance of all speeds, and reports the count (len)
    of each selection.  The executable selections encode the comparison
    with mean ± sqrt(v) over ℚ; this theorem proves them equal to the
    literal mean ± Real.sqrt v comparisons of the spec. -/
theorem speed_classification_mean_std (dist : ℚ × ℚ → ℚ × ℚ → ℚ) (s : String)
    (recs : List DerivedRecord) (_h : load_and_process_data dist s = .ok recs)
    (v : ℚ) (hv : seriesVar (speeds recs) = some v) :
    (high_speed_segments recs).length =
      (recs.filter (fun r =>
        decide ((seriesMean (speeds recs) : ℝ) + Real.sqrt (v : ℝ)
          < (r.speed_kmh : ℝ)))).length ∧
    (low_speed_segments recs).length =
      (recs.filter (fun r =>
        decide ((r.speed_kmh : ℝ)
          < (seriesMean (speeds recs) : ℝ) - Real.sqrt (v : ℝ)))).length := by
  constructor
  · unfold high_speed_segments
    rw [hv]
    refine congrArg List.length (List.filter_congr ?_)
    intro r _
    rw [decide_eq_decide]
    exact (lt_add_sqrt_iff (seriesMean (speeds recs)) v r.speed_kmh).symm
  · unfold low_speed_segments
    rw [hv]
    refine congrArg List.length (List.filter_congr ?_)
    intro r _
    rw [decide_eq_decide]
    exact (lt_sub_sqrt_iff (seriesMean (speeds recs)) v r.speed_kmh).symm

/-- Concrete three-sample journey: speeds 0, 3/5, 3/5, mean 2/5, sample
    variance 3/25; one low-speed record and no high-speed record. -/
def wIn3 : String :=
  "a\t2024-07-09 04:27:31.270921\t30.0\t-97.0\nb\t2024-07-09 04:37:31.270921\t30.1\t-97.0\nc\t2024-07-09 04:47:31.270921\t30.1\t-97.1"

def wRaw3 : RawRecord := ⟨63856097251270921, 301 / 10, -971 / 10, 2024, 7, 9, 4, 47, 31⟩

def wRec3 : DerivedRecord := ⟨wRaw3, 20, 1 / 10, 1 / 5, 3 / 5⟩

def wRecs3 : List DerivedRecord := [wRec1, wRec2, wRec3]

theorem speed_classification_mean_std_witness :
    load_and_process_data taxi wIn3 = .ok wRecs3 ∧
    seriesVar (speeds wRecs3) = some (3 / 25) ∧
    ((high_speed_segments wRecs3).length =
      (wRecs3.filter (fun r =>
        decide ((seriesMean (speeds wRecs3) : ℝ) + Real.sqrt ((3 / 25 : ℚ) : ℝ)
          < (r.speed_kmh : ℝ)))).length ∧
     (low_speed_segments wRecs3).length =
      (wRecs3.filter (fun r =>
        decide ((r.speed_kmh : ℝ)
          < (seriesMean (speeds wRecs3) : ℝ) - Real.sqrt ((3 / 25 : ℚ) : ℝ)))).length) :=
  ⟨by decide, by decide,
   speed_classification_mean_std taxi wIn3 wRecs3 (by decide) (3 / 25) (by decide)⟩

/-- C10: the standard deviation of the Speed Pattern Analysis is the
    sample one: pandas Series.std defaults to ddof = 1, so the variance
    divisor is n - 1 (witnessed on the two-element series 3, 9, whose
    sample variance 18 differs from the population variance 9), and for
    a journey of exactly one record the deviation is NaN (none), which
    makes both speed-band selections empty, so both counts are 0. -/
theorem sample_std_divisor_and_singleton :
    (∀ (dist : ℚ × ℚ → ℚ × ℚ → ℚ) (s : String) (recs : List DerivedRecord),
      load_and_process_data dist s = .ok recs → recs.length = 1 →
      seriesVar (speeds recs) = none ∧
      high_speed_segments recs = [] ∧ low_speed_segments recs = []) ∧
    seriesVar [3, 9] = some 18 ∧ popVar [3, 9] = 9 := by
  refine ⟨?_, by decide, by decide⟩
  intro dist s recs _ h1
  have hlen : (speeds recs).length ≤ 1 := by
    simp [speeds, h1]
  have hv : seriesVar (speeds recs) = none := by
    unfold seriesVar
    simp [hlen]
  refine ⟨hv, ?_, ?_⟩
  · unfold high_speed_segments
    rw [hv]
  · unfold low_speed_segments
    rw [hv]

theorem sample_std_divisor_and_singleton_witness :
    seriesVar (speeds [wRec1]) = none ∧
    high_speed_segments [wRec1] = [] ∧ low_speed_segments [wRec1] = [] :=
  sample_std_divisor_and_singleton.1 taxi singleSampleInput [wRec1]
    (by decide) (by decide)
